import Mathlib

/-!
Shallow embedding of the resumable chunked-upload core of the repository
(`src/upload.rs`, `src/upload_dao.rs`, `src/init_env.rs`).

The relational store (MySQL tables `upload_file_meta`, `upload_progress`,
`system_config`) is modelled as lists of rows; the filesystem as an
association list from path to byte list (bytes as `Nat`).  The external
hash crates (`md5`, `sha2`) and the `sanitize_filename` crate are passed
in as function parameters: the handlers only ever call them as opaque
string producers.  Integer columns are `Nat`/`Int`; the `u64` subtractions
of the source that can underflow are modelled by the checked `u64_sub`
(underflow is a distinguished outcome, matching the debug-build panic /
release-build wrap, after which the source's behaviour is undefined).
-/

/-- Row of `upload_file_meta` (see `save_upload_state_to_db`,
`fetch_file_record`, `update_file_status_and_path` in `upload_dao.rs`). -/
structure FileMetaRow where
  file_id : String
  filename : String
  checksum : String
  file_path : String
  total_size : Nat
  status : Nat
  last_updated : Int
  deriving Repr, DecidableEq

/-- Row of `upload_progress` (see `initialize_upload_progress`,
`update_upload_progress` in `upload_dao.rs`).  `total_size` is the chunk's
size column, as in the source's INSERT. -/
structure ChunkRow where
  file_id : String
  filename : String
  checksum : String
  total_size : Nat
  uploaded_size : Nat
  start_offset : Nat
  end_offset : Nat
  last_updated : Int
  deriving Repr, DecidableEq

/-- The durable store: the two upload tables plus `system_config`. -/
structure Store where
  meta : List FileMetaRow
  progress : List ChunkRow
  config : List (String × String)
  deriving Repr, DecidableEq

/-- Filesystem model: association list path ↦ byte contents. -/
abbrev FS := List (String × List Nat)

def fsRead (fs : FS) (p : String) : Option (List Nat) :=
  (fs.find? (fun e => e.fst = p)).map (fun e => e.snd)

def fsWrite (fs : FS) (p : String) (bs : List Nat) : FS :=
  if (fs.find? (fun e => e.fst = p)).isSome then
    fs.map (fun e => if e.fst = p then (p, bs) else e)
  else fs ++ [(p, bs)]

def fsRemove (fs : FS) (p : String) : FS :=
  fs.filter (fun e => decide (e.fst ≠ p))

/-- `SELECT config_value FROM system_config WHERE config_key = ?` with
`fetch_one` semantics: the first matching row, if any. -/
def get_config (st : Store) (key : String) : Option String :=
  (st.config.find? (fun kv => kv.fst = key)).map (fun kv => kv.snd)

/-- `check_system_initialized` (`init_env.rs` lines 277-292): fetch the
`system_initialized` config row; error if it is missing or its value is
not "success". -/
def check_system_initialized (st : Store) : Except String Unit :=
  match get_config st "system_initialized" with
  | none => .error "Failed to fetch system status"
  | some v => if v = "success" then .ok () else .error "System needs initialization"

/-- `fetch_file_record` (`upload_dao.rs` lines 10-24): the tuple
(filename, checksum, total_size, status, file_path) of the first
`upload_file_meta` row with this `file_id`. -/
def fetch_file_record (st : Store) (file_id : String) :
    Except String (String × String × Nat × Nat × String) :=
  match st.meta.find? (fun r => r.file_id = file_id) with
  | none => .error "Failed to fetch file record"
  | some r => .ok (r.filename, r.checksum, r.total_size, r.status, r.file_path)

/-- `update_upload_progress` (`upload_dao.rs` lines 26-41):
`UPDATE upload_progress SET uploaded_size = ?, checksum = ?
 WHERE file_id = ? AND start_offset = ?`.
Note that the statement sets only those two columns. -/
def update_upload_progress (st : Store) (uploaded_size : Nat) (checksum : String)
    (file_id : String) (start_offset : Nat) : Store :=
  { st with progress := st.progress.map (fun r =>
      if r.file_id = file_id ∧ r.start_offset = start_offset then
        { r with uploaded_size := uploaded_size, checksum := checksum }
      else r) }

/-- `get_total_uploaded` (`upload_dao.rs` lines 43-57):
`SELECT SUM(uploaded_size) FROM upload_progress WHERE file_id = ?`. -/
def get_total_uploaded (st : Store) (file_id : String) : Nat :=
  ((st.progress.filter (fun r => r.file_id = file_id)).map
    (fun r => r.uploaded_size)).sum

/-- The row transform of `update_file_status_and_path`'s UPDATE. -/
def metaStatusUpd (file_id : String) (current_status new_status : Nat)
    (file_path : String) (now : Int) (r : FileMetaRow) : FileMetaRow :=
  if r.file_id = file_id ∧ r.status = current_status then
    { r with status := new_status, file_path := file_path, last_updated := now }
  else r

/-- `update_file_status_and_path` (`upload_dao.rs` lines 59-84):
`UPDATE upload_file_meta SET status = ?, file_path = ?, last_updated = ?
 WHERE file_id = ? AND status = ?` — a CAS-style conditional update. -/
def update_file_status_and_path (st : Store) (file_id : String)
    (current_status new_status : Nat) (file_path : String) (now : Int) : Store :=
  { st with meta := st.meta.map (metaStatusUpd file_id current_status new_status file_path now) }

/-- `fetch_chunk_size` (`upload_dao.rs` lines 86-99). -/
def fetch_chunk_size (st : Store) : Except String Nat :=
  match get_config st "chunk_size" with
  | none => .error "Failed to fetch chunk size"
  | some v =>
    match v.toNat? with
    | none => .error "Invalid chunk size"
    | some n => .ok n

/-- `initialize_upload_progress` (`upload_dao.rs` lines 101-126): INSERT of
one `upload_progress` row with empty checksum and uploaded_size 0
(`last_updated` left to its column default, modelled as 0). -/
def initialize_upload_progress (st : Store) (file_id safe_filename : String)
    (chunk_total start_offset end_offset : Nat) : Store :=
  { st with progress := st.progress ++
      [⟨file_id, safe_filename, "", chunk_total, 0, start_offset, end_offset, 0⟩] }

/-- `save_upload_state_to_db` (`upload_dao.rs` lines 128-153): INSERT of one
`upload_file_meta` row (`status` and `last_updated` left to their column
defaults, modelled as 0). -/
def save_upload_state_to_db (st : Store) (file_id filename : String)
    (total_size : Nat) (checksum file_path : String) : Store :=
  { st with meta := st.meta ++ [⟨file_id, filename, checksum, file_path, total_size, 0, 0⟩] }

/-! ### Header parsing (upload.rs lines 103-148)

Rust `str::split`, `str::replace` and `u64::from_str` are modelled at the
character level so that every definition evaluates in the kernel. -/

def splitOnCharAux (c : Char) : List Char → List Char → List (List Char)
  | [], acc => [acc.reverse]
  | x :: xs, acc =>
    if x = c then acc.reverse :: splitOnCharAux c xs []
    else splitOnCharAux c xs (x :: acc)

/-- Rust `s.split(c)` as a list of pieces (always nonempty, like the
iterator it models). -/
def splitOnChar (c : Char) (s : List Char) : List (List Char) := splitOnCharAux c s []

/-- Rust `u64::from_str`: digits only, empty rejected.  (The `u64` range
and an optional leading sign are immaterial to every claim and are not
modelled.) -/
def parse_u64 (s : List Char) : Option Nat :=
  if s = [] then none
  else s.foldl (fun acc? c => acc?.bind (fun acc =>
    if c.isDigit then some (acc * 10 + (c.toNat - 48)) else none)) (some 0)

/-- `some s1` when `s = pat ++ s1`. -/
def dropPat : List Char → List Char → Option (List Char)
  | [], s => some s
  | _ :: _, [] => none
  | p :: ps, c :: cs => if p = c then dropPat ps cs else none

/-- Rust `s.replace(pat, "")` for a nonempty `pat`; the fuel is the input
length, enough to scan the whole string. -/
def removeAll (pat : List Char) : Nat → List Char → List Char
  | 0, s => s
  | _ + 1, [] => []
  | fuel + 1, c :: cs =>
    match dropPat pat (c :: cs) with
    | some rest => removeAll pat fuel rest
    | none => c :: removeAll pat fuel cs

/-- Checked `u64` subtraction: `none` models the underflow that panics in a
debug build (wraps in release, after which behaviour is undefined). -/
def u64_sub (a b : Nat) : Option Nat := if b ≤ a then some (a - b) else none

/-- The `Content-Range` computation of `upload_file` (upload.rs lines
138-145): `range.split('/').next().unwrap_or("bytes 0-0").split('-')`,
`parts[0].replace("bytes ", "").parse().unwrap_or(0)`, and the second part
parsed with the default `start + content_length - 1`.  (In the source the
`unwrap_or` argument is evaluated eagerly even when a second part parses;
its value is then discarded, so computing it only in the `none` branch is
observationally the same.) -/
def parse_content_range (range : List Char) (content_length : Nat) : Option (Nat × Nat) :=
  let first := (splitOnChar '/' range).headD "bytes 0-0".data
  let parts := splitOnChar '-' first
  let p0 := parts.headD []
  let start := (parse_u64 (removeAll "bytes ".data p0.length p0)).getD 0
  match (parts.get? 1).bind parse_u64 with
  | some e => some (start, e)
  | none => (u64_sub (start + content_length) 1).map (fun e => (start, e))

/-- upload.rs lines 137-148: derive `(start_pos, end_pos)` from the
optional `Content-Range` header; without it `(0, content_length - 1)`. -/
def derive_positions (content_range : Option String) (content_length : Nat) :
    Option (Nat × Nat) :=
  match content_range with
  | some r => parse_content_range r.data content_length
  | none => (u64_sub content_length 1).map (fun e => (0, e))

/-! ### Staging file paths and writes -/

/-- upload.rs line 151: `format!("uploads/{}_chunk_{}", safe_filename, start_offset)`. -/
def chunk_file_path (safe_filename : String) (start_offset : Nat) : String :=
  "uploads/" ++ safe_filename ++ "_chunk_" ++ toString start_offset

/-- upload.rs lines 224 and 415: `format!("uploads/{}", filename)`. -/
def final_file_path (safe_filename : String) : String := "uploads/" ++ safe_filename

/-- Overwrite `data` into `content` at byte position `pos`, zero-filling
any gap past the end of the file, as a positioned OS write does. -/
def writeAt (content : List Nat) (pos : Nat) (data : List Nat) : List Nat :=
  content.take pos ++ List.replicate (pos - content.length) 0 ++ data
    ++ content.drop (pos + data.length)

/-! ### The streaming write loop (upload.rs lines 171-206) -/

/-- The mutable state of `upload_file`'s write loop: the staging file's
bytes, the store, the running `uploaded_size` variable (initialised to
`start_pos`, line 172) and the bytes fed to the SHA-256 hasher. -/
structure LoopState where
  file : List Nat
  store : Store
  uploaded_size : Nat
  written : List Nat
  deriving Repr, DecidableEq

/-- One pass of the `while let Some(chunk) = payload.next()` loop.  For each
buffer: `remaining = content_length.saturating_sub(uploaded_size - start_pos)`,
`take = min(len, remaining)`, write `buf[..take]` at the file cursor
(`seek_pos` plus the bytes already written in this call), update the hasher,
`uploaded_size += take`, commit
`update_upload_progress(uploaded_size - start_pos, hex(hasher.clone()))`,
and break once `uploaded_size - start_pos ≥ content_length`. -/
def upload_loop (sha : List Nat → String) (file_id : String)
    (start_offset start_pos content_length seek_pos : Nat) :
    List (List Nat) → LoopState → LoopState
  | [], s => s
  | buf :: rest, s =>
    let remaining := content_length - (s.uploaded_size - start_pos)
    let take := min buf.length remaining
    let data := buf.take take
    let file2 := writeAt s.file (seek_pos + (s.uploaded_size - start_pos)) data
    let written2 := s.written ++ data
    let uploaded2 := s.uploaded_size + take
    let store2 := update_upload_progress s.store (uploaded2 - start_pos)
        (sha written2) file_id start_offset
    let s2 : LoopState := ⟨file2, store2, uploaded2, written2⟩
    if content_length ≤ uploaded2 - start_pos then s2
    else upload_loop sha file_id start_offset start_pos content_length seek_pos rest s2

/-! ### Chunk assembly (upload.rs lines 414-453) -/

/-- The hard-coded step of the source's assembly loop. -/
def mergeStep : Nat := 1024 * 1024

/-- `(0..total_size).step_by(1024 * 1024)` as a list. -/
def mergeStarts (total_size : Nat) : List Nat :=
  (List.range ((total_size + mergeStep - 1) / mergeStep)).map (fun i => i * mergeStep)

/-- The body of `merge_chunks`' for-loop: open each staging file (error if
absent), append its bytes to the final file at the running position, and
delete it.  Errors carry the filesystem as already mutated. -/
def mergeLoop (safe_filename : String) : List Nat → FS → Nat → Except (String × FS) FS
  | [], fs, _ => .ok fs
  | s :: rest, fs, pos =>
    let cp := chunk_file_path safe_filename s
    match fsRead fs cp with
    | none => .error ("Failed to open chunk file", fs)
    | some bs =>
      let fp := final_file_path safe_filename
      let fs2 := fsWrite fs fp (writeAt ((fsRead fs fp).getD []) pos bs)
      mergeLoop safe_filename rest (fsRemove fs2 cp) (pos + bs.length)

/-- `merge_chunks(filename, total_size)` (upload.rs lines 414-453): the
final file is opened with `create(true).write(true)` (created empty if
absent, NOT truncated if present), then the loop copies the staging file
of every `start` in `(0..total_size).step_by(1024 * 1024)`. -/
def merge_chunks (fs : FS) (safe_filename : String) (total_size : Nat) :
    Except (String × FS) FS :=
  let fp := final_file_path safe_filename
  let fs0 := fsWrite fs fp ((fsRead fs fp).getD [])
  mergeLoop safe_filename (mergeStarts total_size) fs0 0

/-! ### Outcomes of the two handlers -/

/-- Chunk of the plan returned by `submit_file_metadata` (upload.rs
lines 306-311). -/
structure ChunkInfo where
  start_offset : Nat
  end_offset : Nat
  chunk_size : Nat
  deriving Repr, DecidableEq

/-- The observable result of a handler call: success envelopes, envelope
errors with a machine code, plain-body 400s/500s, and the distinguished
`underflowPanic` marking a `u64` subtraction underflow (upload.rs lines
144, 147 and 166). -/
inductive Outcome where
  | envelopeError (code : String)
  | plainBadRequest (msg : String)
  | serverError (msg : String)
  | underflowPanic (site : String)
  | rangeSuccess (filename : String) (size : Nat) (checksum : String)
  | uploadComplete (filename : String) (size : Nat) (checksum : String)
  | registerSuccess (file_id filename : String)
      (total_size chunk_size total_chunks : Nat) (chunks : List ChunkInfo)
  deriving Repr, DecidableEq

/-! ### Completion check and assembly (upload.rs lines 208-296) -/

/-- The tail of `upload_file` after the write loop: sum the per-chunk
progress; when it reaches `total_size`, flip status 0→1, merge the staging
files, MD5 the final file, compare with the stored checksum (exact string
comparison, line 263), and on equality flip status 1→2 recording the final
path; otherwise answer `range_success`. -/
def finish_upload (md5 : List Nat → String) (now : Int) (sha_final : String)
    (file_id safe_filename : String) (total_size uploaded_size : Nat)
    (st : Store) (fs : FS) : Outcome × Store × FS :=
  if total_size ≤ get_total_uploaded st file_id then
    match merge_chunks fs safe_filename total_size with
    | .error (msg, fs1) =>
      (.serverError msg, update_file_status_and_path st file_id 0 1 "" now, fs1)
    | .ok fs1 =>
      match fsRead fs1 (final_file_path safe_filename) with
      | none =>
        (.serverError "Failed to open final file for hashing",
          update_file_status_and_path st file_id 0 1 "" now, fs1)
      | some bytes =>
        match fetch_file_record (update_file_status_and_path st file_id 0 1 "" now) file_id with
        | .error e => (.serverError e, update_file_status_and_path st file_id 0 1 "" now, fs1)
        | .ok (_, expected_md5, _, _, _) =>
          if md5 bytes ≠ expected_md5 then
            (.serverError "File is corrupted: MD5 hash mismatch",
              update_file_status_and_path st file_id 0 1 "" now, fs1)
          else
            (.uploadComplete safe_filename total_size (md5 bytes),
              update_file_status_and_path
                (update_file_status_and_path st file_id 0 1 "" now) file_id 1 2
                (final_file_path safe_filename) now,
              fs1)
  else
    (.rangeSuccess safe_filename uploaded_size sha_final, st, fs)

/-- The HTTP request consumed by `upload_file`: raw header values and the
body as the list of buffers the payload stream yields. -/
structure UploadRequest where
  x_file_id : Option String
  x_start_offset : Option String
  content_length : Option String
  content_range : Option String
  body : List (List Nat)
  deriving Repr, DecidableEq

/-- `upload_file` (upload.rs lines 77-297).  `sanitize`, `sha` (lowercase
hex SHA-256) and `md5` (lowercase hex MD5) stand for the external crates;
`now` for the clock.  Returns the outcome with the final store and
filesystem. -/
def upload_file (sanitize : String → String) (sha md5 : List Nat → String)
    (now : Int) (req : UploadRequest) (st : Store) (fs : FS) :
    Outcome × Store × FS :=
  match check_system_initialized st with
  | .error _ => (.envelopeError "SYSTEM_NOT_INITIALIZED", st, fs)
  | .ok _ =>
  match req.x_file_id with
  | none => (.envelopeError "MISSING_FILE_ID", st, fs)
  | some file_id =>
  match req.x_start_offset.bind (fun h => parse_u64 h.data) with
  | none => (.plainBadRequest "Missing or invalid start offset", st, fs)
  | some start_offset =>
  match fetch_file_record st file_id with
  | .error e => (.serverError e, st, fs)
  | .ok (filename, _, total_size, _, _) =>
  let safe_filename := sanitize filename
  match req.content_length.bind (fun h => parse_u64 h.data) with
  | none => (.plainBadRequest "Invalid content length", st, fs)
  | some content_length =>
  match derive_positions req.content_range content_length with
  | none => (.underflowPanic "end_pos", st, fs)
  | some (start_pos, _end_pos) =>
  let path := chunk_file_path safe_filename start_offset
  let file0 := (fsRead fs path).getD []
  match u64_sub start_pos start_offset with
  | none => (.underflowPanic "seek", st, fs)
  | some seek_pos =>
    let ls := upload_loop sha file_id start_offset start_pos content_length
        seek_pos req.body ⟨file0, st, start_pos, []⟩
    let fs1 := fsWrite fs path ls.file
    finish_upload md5 now (sha ls.written) file_id safe_filename total_size
      ls.uploaded_size ls.store fs1

/-! ### The chunk planner (upload.rs lines 313-411) -/

/-- upload.rs line 368: `(total_size + chunk_size - 1) / chunk_size`. -/
def num_chunks (total_size chunk_size : Nat) : Nat :=
  (total_size + chunk_size - 1) / chunk_size

/-- upload.rs line 372. -/
def chunk_start (chunk_size i : Nat) : Nat := i * chunk_size

/-- upload.rs line 373: `((i + 1) * chunk_size).min(total_size) - 1`. -/
def chunk_end (total_size chunk_size i : Nat) : Nat :=
  min ((i + 1) * chunk_size) total_size - 1

/-- upload.rs line 374: `end_offset - start_offset + 1`. -/
def chunk_len (total_size chunk_size i : Nat) : Nat :=
  chunk_end total_size chunk_size i - chunk_start chunk_size i + 1

/-- The plan built by the `for i in 0..num_chunks` loop of
`submit_file_metadata`. -/
def chunkPlan (total_size chunk_size : Nat) : List ChunkInfo :=
  (List.range (num_chunks total_size chunk_size)).map (fun i =>
    ⟨chunk_start chunk_size i, chunk_end total_size chunk_size i,
      chunk_len total_size chunk_size i⟩)

/-- The metadata submitted to `submit_file_metadata`. -/
structure FileMetadata where
  filename : String
  total_size : Nat
  checksum : String
  deriving Repr, DecidableEq

/-- `submit_file_metadata` (upload.rs lines 313-411).  `uuid` stands for
the fresh `Uuid::new_v4()`.  A store error inside the transaction rolls
back, leaving the original store; since the source's `save_to_db` is
inside that transaction, performing it only once `fetch_chunk_size`
succeeded yields the same committed store. -/
def submit_file_metadata (sanitize : String → String) (uuid : String)
    (metadata : FileMetadata) (st : Store) : Outcome × Store :=
  match check_system_initialized st with
  | .error _ => (.envelopeError "SYSTEM_NOT_INITIALIZED", st)
  | .ok _ =>
    match fetch_chunk_size st with
    | .error _ => (.envelopeError "FETCH_CHUNK_SIZE_ERROR", st)
    | .ok chunk_size =>
      (.registerSuccess uuid (sanitize metadata.filename) metadata.total_size chunk_size
        (num_chunks metadata.total_size chunk_size) (chunkPlan metadata.total_size chunk_size),
       (chunkPlan metadata.total_size chunk_size).foldl (fun s ci =>
          initialize_upload_progress s uuid (sanitize metadata.filename) ci.chunk_size
            ci.start_offset ci.end_offset)
         (save_upload_state_to_db st uuid (sanitize metadata.filename)
           metadata.total_size metadata.checksum ""))

/-! ### Status-advance machinery (for the monotone-status claim) -/

/-- Reachability along the status chain `REGISTERED(0) → PROCESSING(1) →
COMPLETED(2)` using only the steps 0→1 and 1→2 (reflexive-transitive
closure restricted to the chain). -/
def statusAdvance (a b : Nat) : Prop :=
  b = a ∨ (a = 0 ∧ b = 1) ∨ (a = 1 ∧ b = 2) ∨ (a = 0 ∧ b = 2)

/-- Row-wise status advancement between two `upload_file_meta` table states. -/
def metaAdvances (l1 l2 : List FileMetaRow) : Prop :=
  List.Forall₂ (fun o n => statusAdvance o.status n.status) l1 l2

lemma statusAdvance_refl (a : Nat) : statusAdvance a a := Or.inl rfl

lemma metaAdvances_refl (l : List FileMetaRow) : metaAdvances l l := by
  induction l with
  | nil => exact List.Forall₂.nil
  | cons x xs ih => exact List.Forall₂.cons (statusAdvance_refl _) ih

lemma metaAdvances_map (f : FileMetaRow → FileMetaRow)
    (h : ∀ r, statusAdvance r.status (f r).status) (l : List FileMetaRow) :
    metaAdvances l (l.map f) := by
  induction l with
  | nil => exact List.Forall₂.nil
  | cons x xs ih => exact List.Forall₂.cons (h x) ih

lemma advance_upd01 (fid fp : String) (now : Int) (r : FileMetaRow) :
    statusAdvance r.status (metaStatusUpd fid 0 1 fp now r).status := by
  unfold metaStatusUpd
  split
  · next h => exact Or.inr (Or.inl ⟨h.2, rfl⟩)
  · exact statusAdvance_refl _

lemma advance_upd01_12 (fid1 fp1 : String) (now1 : Int) (fid2 fp2 : String) (now2 : Int)
    (r : FileMetaRow) :
    statusAdvance r.status
      (metaStatusUpd fid2 1 2 fp2 now2 (metaStatusUpd fid1 0 1 fp1 now1 r)).status := by
  unfold metaStatusUpd
  split
  · next h1 =>
    split
    · exact Or.inr (Or.inr (Or.inr ⟨h1.2, rfl⟩))
    · exact Or.inr (Or.inl ⟨h1.2, rfl⟩)
  · split
    · next h2 => exact Or.inr (Or.inr (Or.inl ⟨h2.2, rfl⟩))
    · exact statusAdvance_refl _

/-- The write loop commits only chunk-progress rows: the
`upload_file_meta` table is untouched. -/
lemma upload_loop_meta (sha : List Nat → String) (fid : String)
    (so sp cl sk : Nat) (bufs : List (List Nat)) (s : LoopState) :
    (upload_loop sha fid so sp cl sk bufs s).store.meta = s.store.meta := by
  induction bufs generalizing s with
  | nil => rfl
  | cons b rest ih =>
    simp only [upload_loop]
    split
    · rfl
    · rw [ih]; rfl

/-- Every branch of the completion phase leaves the meta table equal to the
input, its image under the 0→1 CAS, or its image under 0→1 then 1→2. -/
lemma finish_upload_meta (md5 : List Nat → String) (now : Int) (shaF : String)
    (fid fname : String) (tot up : Nat) (st : Store) (fs : FS) :
    metaAdvances st.meta (finish_upload md5 now shaF fid fname tot up st fs).2.1.meta := by
  unfold finish_upload
  repeat' split
  all_goals
    first
    | exact metaAdvances_refl _
    | exact metaAdvances_map _ (advance_upd01 fid "" now) _
    | (simp only [update_file_status_and_path, List.map_map]
       exact metaAdvances_map _
         (advance_upd01_12 fid "" now fid (final_file_path fname) now) _)

lemma finish_upload_meta_of_eq {md5 : List Nat → String} {now : Int} {shaF : String}
    {fid fname : String} {tot up : Nat} {stL st : Store} {fs : FS}
    (h : stL.meta = st.meta) :
    metaAdvances st.meta (finish_upload md5 now shaF fid fname tot up stL fs).2.1.meta := by
  rw [← h]
  exact finish_upload_meta md5 now shaF fid fname tot up stL fs

/-- The planner's per-chunk INSERT loop appends exactly the plan's rows. -/
lemma fold_init_progress (fid fname : String) (l : List ChunkInfo) :
    ∀ s : Store,
      (l.foldl (fun s ci =>
        initialize_upload_progress s fid fname ci.chunk_size ci.start_offset ci.end_offset) s) =
      { s with progress := s.progress ++ l.map (fun ci =>
          ⟨fid, fname, "", ci.chunk_size, 0, ci.start_offset, ci.end_offset, 0⟩) } := by
  induction l with
  | nil => intro s; simp
  | cons x xs ih =>
    intro s
    rw [List.foldl_cons, ih]
    simp [initialize_upload_progress]

/-! ### Arithmetic of the chunk plan -/

lemma num_chunks_eq (total c : Nat) (ht : 1 ≤ total) (hc : 1 ≤ c) :
    num_chunks total c = (total - 1) / c + 1 := by
  unfold num_chunks
  have h1 : total + c - 1 = (total - 1) + c := by omega
  rw [h1, Nat.add_div_right _ (by omega : 0 < c)]

lemma mul_lt_total {total c : Nat} (ht : 1 ≤ total) (hc : 1 ≤ c) {i : Nat}
    (hi : i < num_chunks total c) : i * c < total := by
  rw [num_chunks_eq total c ht hc] at hi
  have h2 : i ≤ (total - 1) / c := by omega
  have h3 : i * c ≤ (total - 1) / c * c := Nat.mul_le_mul_right c h2
  have h4 : (total - 1) / c * c ≤ total - 1 := Nat.div_mul_le_self _ _
  omega

lemma total_le_mul (total c : Nat) (ht : 1 ≤ total) (hc : 1 ≤ c) :
    total ≤ num_chunks total c * c := by
  rw [num_chunks_eq total c ht hc]
  have h1 := Nat.div_add_mod (total - 1) c
  have h2 : (total - 1) % c < c := Nat.mod_lt _ (by omega)
  have h3 : ((total - 1) / c + 1) * c = (total - 1) / c * c + c := by ring
  have h4 : c * ((total - 1) / c) = (total - 1) / c * c := by ring
  omega

lemma sum_range_chunk_len (total c : Nat) (ht : 1 ≤ total) (hc : 1 ≤ c) :
    ∀ m, m ≤ num_chunks total c →
      ((List.range m).map (chunk_len total c)).sum = min (m * c) total := by
  intro m
  induction m with
  | zero => intro _; simp
  | succ k ih =>
    intro hm
    rw [List.range_succ, List.map_append, List.sum_append, ih (by omega)]
    simp only [List.map_cons, List.map_nil, List.sum_cons, List.sum_nil]
    have hk : k < num_chunks total c := by omega
    have hA := mul_lt_total ht hc hk
    have hAB : (k + 1) * c = k * c + c := by ring
    unfold chunk_len chunk_end chunk_start
    have hM1 : min ((k + 1) * c) total ≤ (k + 1) * c := Nat.min_le_left _ _
    have hM2 : k * c < min ((k + 1) * c) total := lt_min (by omega) hA
    omega

deriving instance DecidableEq for Except

/-- ASCII lowercasing of one character (Rust `eq_ignore_ascii_case`'s
normalisation). -/
def asciiLower (c : Char) : Char :=
  if 'A' ≤ c ∧ c ≤ 'Z' then Char.ofNat (c.toNat + 32) else c

/-- Case-insensitive (ASCII) string equality — the comparison the spec
prescribes for the digest check. -/
def eqIgnoreAsciiCase (a b : String) : Prop :=
  a.data.map asciiLower = b.data.map asciiLower

instance (a b : String) : Decidable (eqIgnoreAsciiCase a b) :=
  inferInstanceAs (Decidable (a.data.map asciiLower = b.data.map asciiLower))

/-! ### Concrete scenario fixtures -/

/-- Stand-in for the SHA-256 hex function (its value is irrelevant to the
properties evaluated on these fixtures). -/
def shaS : List Nat → String := fun _ => "s"

/-- Stand-in for the MD5 hex function. -/
def md5S : List Nat → String := fun _ => "m"

/-- A registered 4-byte file "WXYZ" whose single chunk `[0,3]` already has
its first two bytes "WX" on disk and `uploaded_size = 2` committed — the
state after the first call of the spec's resume scenario. -/
def resumeStore : Store :=
  ⟨[⟨"f1", "f", "02dcb4b4eb1437cce0eaa224bbcdcacb", "", 4, 0, 0⟩],
   [⟨"f1", "f", "c1", 4, 2, 0, 3, 0⟩],
   [("system_initialized", "success")]⟩

def resumeFs : FS := [("uploads/f_chunk_0", [87, 88])]

/-- The resumed call: `X-Start-Offset: 0`, `Content-Length: 2`,
`Content-Range: bytes 2-3/*`, body "YZ". -/
def resumeReq : UploadRequest := ⟨some "f1", some "0", some "2", some "bytes 2-3/*", [[89, 90]]⟩

def resumeResult : Outcome × Store × FS :=
  upload_file id shaS md5S 0 resumeReq resumeStore resumeFs

/-- A file whose status is already COMPLETED (2), its staging files gone. -/
def completedStore : Store :=
  ⟨[⟨"f1", "f", "x", "uploads/f", 4, 2, 0⟩],
   [⟨"f1", "f", "d", 4, 4, 0, 3, 0⟩],
   [("system_initialized", "success")]⟩

def completedReq : UploadRequest := ⟨some "f1", some "0", some "2", none, [[97, 98]]⟩

def completedResult : Outcome × Store × FS :=
  upload_file id shaS md5S 0 completedReq completedStore []

/-- A registered 8-byte file with two planned chunks `[0,3]` and `[4,7]`
(chunk size 4), nothing uploaded yet. -/
def twoChunkStore : Store :=
  ⟨[⟨"f1", "f", "x", "", 8, 0, 0⟩],
   [⟨"f1", "f", "", 4, 0, 0, 3, 0⟩, ⟨"f1", "f", "", 4, 0, 4, 7, 0⟩],
   [("system_initialized", "success")]⟩

/-- A call delivering 6 bytes into the 4-byte chunk at offset 0:
`start_pos + content_length = 6 > start_offset + chunk_size = 4`. -/
def overrunReq : UploadRequest := ⟨some "f1", some "0", some "6", none, [[1, 2, 3, 4, 5, 6]]⟩

def overrunResult : Outcome × Store × FS :=
  upload_file id shaS md5S 0 overrunReq twoChunkStore []

/-- Staging files of the plan `chunkPlan 7 4`: chunk `[0,3]` = "abcd" and
chunk `[4,6]` = "efg". -/
def mergeFs : FS :=
  [("uploads/f_chunk_0", [97, 98, 99, 100]), ("uploads/f_chunk_4", [101, 102, 103])]

/-- Two progress rows; the one of `("f1", 0)` is the target of an update. -/
def progressStore : Store :=
  ⟨[], [⟨"f1", "f", "old", 4, 1, 0, 3, 42⟩, ⟨"f2", "g", "o2", 4, 1, 0, 3, 7⟩], []⟩

/-- Fully uploaded single-chunk file whose stored digest "AB" is the
uppercase of the computed one. -/
def mismatchStore : Store :=
  ⟨[⟨"f1", "f", "AB", "", 1, 0, 0⟩],
   [⟨"f1", "f", "d", 1, 1, 0, 0, 0⟩],
   [("system_initialized", "success")]⟩

/-- Same fixture with the stored digest equal to the computed "ab". -/
def matchStore : Store :=
  ⟨[⟨"f1", "f", "ab", "", 1, 0, 0⟩],
   [⟨"f1", "f", "d", 1, 1, 0, 0, 0⟩],
   [("system_initialized", "success")]⟩

def oneChunkFs : FS := [("uploads/f_chunk_0", [120])]

/-- An MD5 stand-in returning the lowercase hex digest "ab". -/
def lowerMd5 : List Nat → String := fun _ => "ab"

/-- A store whose `system_initialized` config value is not "success". -/
def notInitStore : Store := ⟨[], [], [("system_initialized", "pending")]⟩

/-! ### The claims -/

/-- C1: the spec requires each per-buffer commit to store
`uploaded_size = (start_pos − start_offset) + written`, the cumulative
in-chunk byte count.  The code commits `uploaded_size − start_pos`, i.e.
only this call's byte count (upload.rs line 198).  Evaluated at the spec's
own resume scenario ("WX" already uploaded, resumed call writes "YZ" at
`Content-Range: bytes 2-3/*`): the staging file correctly holds all four
bytes, but the committed `uploaded_size` is 2 instead of 4, the chunk sum
stays below `total_size`, and the call answers `range_success` instead of
completing the file. -/
theorem C1_resume_commit_drops_prior_bytes :
    resumeResult.2.1.progress.map (fun r => r.uploaded_size) = [2]
    ∧ resumeResult.1 = Outcome.rangeSuccess "f" 4 "s"
    ∧ get_total_uploaded resumeResult.2.1 "f1" = 2
    ∧ fsRead resumeResult.2.2 (chunk_file_path "f" 0) = some [87, 88, 89, 90] := by
  decide

/-- C2: the claim says assembly iterates the stored chunk plan for any
configured chunk size.  The code iterates `(0..total_size).step_by(1024 *
1024)` (upload.rs line 428).  With `chunk_size = 4` and `total_size = 7`
the plan has chunks at offsets 0 and 4, but the merge loop visits offset 0
only: the final file gets only chunk 0's bytes "abcd" and the staging file
of chunk 4 is neither copied nor deleted. -/
theorem C2_merge_ignores_chunk_plan :
    (chunkPlan 7 4).map (fun ci => ci.start_offset) = [0, 4]
    ∧ mergeStarts 7 = [0]
    ∧ merge_chunks mergeFs "f" 7 =
        Except.ok [("uploads/f_chunk_4", [101, 102, 103]), ("uploads/f", [97, 98, 99, 100])]
    ∧ fsRead [("uploads/f_chunk_4", [101, 102, 103]), ("uploads/f", [97, 98, 99, 100])]
        (final_file_path "f") = some [97, 98, 99, 100]
    ∧ fsRead [("uploads/f_chunk_4", [101, 102, 103]), ("uploads/f", [97, 98, 99, 100])]
        (chunk_file_path "f" 4) = some [101, 102, 103] := by
  decide

/-- C3: the claim says a call on a file whose status is not REGISTERED
fails with FailedPrecondition and writes nothing.  `upload_file` fetches
the record but discards its status (upload.rs line 114, the status
position is `_`): on a COMPLETED (status 2) file the call proceeds,
recreates the staging file with the body bytes, overwrites the progress
row and answers `range_success`. -/
theorem C3_upload_ignores_file_status :
    completedStore.meta.map (fun r => r.status) = [2]
    ∧ completedResult.1 = Outcome.rangeSuccess "f" 2 "s"
    ∧ fsRead completedResult.2.2 (chunk_file_path "f" 0) = some [97, 98]
    ∧ completedResult.2.1.progress.map (fun r => r.uploaded_size) = [2]
    ∧ completedResult.2.1 ≠ completedStore := by
  decide

/-- C4 counterexample: the claim's publication condition is
case-insensitive digest equality.  With stored digest "AB" and computed
digest "ab" — equal ignoring case — the code's exact string comparison
(upload.rs line 263) fails the upload with the DataLoss error, the status
stays PROCESSING (1), and the assembled file stays on disk: the claim's
"if" direction is false on the code. -/
theorem C4_case_insensitive_cex :
    eqIgnoreAsciiCase "ab" "AB"
    ∧ finish_upload lowerMd5 0 "s" "f1" "f" 1 1 mismatchStore oneChunkFs =
        (Outcome.serverError "File is corrupted: MD5 hash mismatch",
         ⟨[⟨"f1", "f", "AB", "", 1, 1, 0⟩], mismatchStore.progress, mismatchStore.config⟩,
         [("uploads/f", [120])]) := by
  decide

/-- C4 (amended): at assembly the file is published as COMPLETED — the
1→2 CAS with `file_path` set to the final path — if and only if the
computed MD5 equals `expected_digest` under EXACT (case-sensitive) string
comparison; on mismatch the call fails with the DataLoss error, the store
is left at the post-0→1 stage (status PROCESSING), and the final file
remains on disk. -/
theorem C4_publish_iff_exact_digest_match (md5 : List Nat → String) (now : Int)
    (shaF fid fname : String) (tot up : Nat) (st : Store) (fs fsM : FS)
    (bytes : List Nat) (rec : String × String × Nat × Nat × String)
    (hTot : tot ≤ get_total_uploaded st fid)
    (hMerge : merge_chunks fs fname tot = .ok fsM)
    (hRead : fsRead fsM (final_file_path fname) = some bytes)
    (hFetch : fetch_file_record (update_file_status_and_path st fid 0 1 "" now) fid = .ok rec) :
    (md5 bytes = rec.2.1 →
      finish_upload md5 now shaF fid fname tot up st fs =
        (Outcome.uploadComplete fname tot (md5 bytes),
         update_file_status_and_path (update_file_status_and_path st fid 0 1 "" now)
           fid 1 2 (final_file_path fname) now,
         fsM))
    ∧ (md5 bytes ≠ rec.2.1 →
      finish_upload md5 now shaF fid fname tot up st fs =
        (Outcome.serverError "File is corrupted: MD5 hash mismatch",
         update_file_status_and_path st fid 0 1 "" now,
         fsM)
      ∧ fsRead fsM (final_file_path fname) = some bytes) := by
  obtain ⟨a, b, c, d, e⟩ := rec
  unfold finish_upload
  rw [if_pos hTot, hMerge]
  simp only [hRead, hFetch]
  constructor
  · intro heq
    simp only [heq] at *
    rw [if_neg (by simp)]
  · intro hne
    rw [if_pos (by simpa using hne)]
    exact ⟨rfl, trivial⟩

theorem C4_publish_iff_exact_digest_match_witness :
    finish_upload lowerMd5 0 "s" "f1" "f" 1 1 matchStore oneChunkFs =
      (Outcome.uploadComplete "f" 1 "ab",
       update_file_status_and_path (update_file_status_and_path matchStore "f1" 0 1 "" 0)
         "f1" 1 2 (final_file_path "f") 0,
       [("uploads/f", [120])]) :=
  (C4_publish_iff_exact_digest_match lowerMd5 0 "s" "f1" "f" 1 1 matchStore oneChunkFs
    [("uploads/f", [120])] [120] ("f", "ab", 1, 1, "")
    (by decide) (by decide) (by decide) (by decide)).1 rfl

/-- The status tables a `submit_file_metadata` call can leave: rollback
(meta unchanged) or exactly one appended row, status 0. -/
lemma submit_meta_cases (sanitize : String → String) (uuid : String)
    (metadata : FileMetadata) (st : Store) :
    (submit_file_metadata sanitize uuid metadata st).2.meta = st.meta
    ∨ (submit_file_metadata sanitize uuid metadata st).2.meta =
        st.meta ++ [⟨uuid, sanitize metadata.filename, metadata.checksum, "",
          metadata.total_size, 0, 0⟩] := by
  unfold submit_file_metadata
  split
  · left; rfl
  · split
    · left; rfl
    · right
      rw [fold_init_progress]
      rfl

/-- `upload_file` can only advance statuses along the chain. -/
lemma upload_file_meta_advances (sanitize : String → String)
    (sha md5 : List Nat → String) (now : Int) (req : UploadRequest)
    (st : Store) (fs : FS) :
    metaAdvances st.meta (upload_file sanitize sha md5 now req st fs).2.1.meta := by
  unfold upload_file
  repeat' split
  all_goals
    first
    | exact metaAdvances_refl _
    | exact finish_upload_meta_of_eq (upload_loop_meta _ _ _ _ _ _ _ _)

/-- C5: for a successful registration with `total_size ≥ 1` and
`chunk_size ≥ 1` the plan (and the inserted `upload_progress` rows, last
conjunct) has `n = ceil(total_size / chunk_size)` chunks with
`start_offset = i * chunk_size`,
`end_offset = min((i+1)*chunk_size, total_size) − 1` (both definitional in
this embedding), contiguous from 0, non-overlapping, every chunk nonempty
and at most `chunk_size` with all but the last exactly `chunk_size`, and
the sizes summing to `total_size`. -/
theorem C5_chunk_plan_partition (total c : Nat) (ht : 1 ≤ total) (hc : 1 ≤ c) :
    (chunkPlan total c).length = num_chunks total c
    ∧ total ≤ num_chunks total c * c
    ∧ (num_chunks total c - 1) * c < total
    ∧ chunk_start c 0 = 0
    ∧ (∀ i, i + 1 < num_chunks total c →
        chunk_end total c i + 1 = chunk_start c (i + 1))
    ∧ (∀ i, i + 1 < num_chunks total c → chunk_len total c i = c)
    ∧ (∀ i, i < num_chunks total c →
        1 ≤ chunk_len total c i ∧ chunk_len total c i ≤ c
          ∧ chunk_start c i ≤ chunk_end total c i)
    ∧ ((chunkPlan total c).map (fun ci => ci.chunk_size)).sum = total
    ∧ (∀ (sanitize : String → String) (uuid : String) (metadata : FileMetadata)
        (st : Store) (fid fname : String) (tsz tch : Nat)
        (plan : List ChunkInfo) (st2 : Store),
        submit_file_metadata sanitize uuid metadata st =
          (.registerSuccess fid fname tsz c tch plan, st2) →
        plan = chunkPlan metadata.total_size c
        ∧ st2.progress = st.progress ++ plan.map (fun ci =>
            ⟨fid, fname, "", ci.chunk_size, 0, ci.start_offset, ci.end_offset, 0⟩)) := by
  refine ⟨?_, total_le_mul total c ht hc, ?_, ?_, ?_, ?_, ?_, ?_, ?_⟩
  · simp [chunkPlan]
  · rw [num_chunks_eq total c ht hc]
    simp only [Nat.add_sub_cancel]
    have h4 : (total - 1) / c * c ≤ total - 1 := Nat.div_mul_le_self _ _
    omega
  · simp [chunk_start]
  · intro i hi
    have hB := mul_lt_total ht hc hi
    have h1 : 1 ≤ (i + 1) * c := Nat.mul_pos (by omega) (by omega)
    unfold chunk_end chunk_start
    rw [min_eq_left (by omega)]
    omega
  · intro i hi
    have hB := mul_lt_total ht hc hi
    have hAB : (i + 1) * c = i * c + c := by ring
    unfold chunk_len chunk_end chunk_start
    rw [min_eq_left (by omega)]
    omega
  · intro i hi
    have hA := mul_lt_total ht hc hi
    have hAB : (i + 1) * c = i * c + c := by ring
    unfold chunk_len chunk_end chunk_start
    have hM1 : min ((i + 1) * c) total ≤ (i + 1) * c := Nat.min_le_left _ _
    have hM2 : i * c < min ((i + 1) * c) total := lt_min (by omega) hA
    omega
  · unfold chunkPlan
    rw [List.map_map]
    have he : ((fun ci => ci.chunk_size) ∘ fun i =>
        (⟨chunk_start c i, chunk_end total c i, chunk_len total c i⟩ : ChunkInfo)) =
        chunk_len total c := rfl
    rw [he, sum_range_chunk_len total c ht hc _ le_rfl,
      min_eq_right (total_le_mul total c ht hc)]
  · intro sanitize uuid metadata st fid fname tsz tch plan st2 h
    unfold submit_file_metadata at h
    revert h
    split
    · intro h; simp at h
    · split
      · intro h; simp at h
      · intro h
        rw [Prod.mk.injEq] at h
        obtain ⟨h1, h2⟩ := h
        rw [Outcome.registerSuccess.injEq] at h1
        obtain ⟨e1, e2, e3, e4, e5, e6⟩ := h1
        subst e1; subst e2; subst e4; subst e6
        rw [← h2, fold_init_progress]
        exact ⟨rfl, rfl⟩

theorem C5_chunk_plan_partition_witness :
    ((chunkPlan 7 4).map (fun ci => ci.chunk_size)).sum = 7 :=
  (C5_chunk_plan_partition 7 4 (by decide) (by decide)).2.2.2.2.2.2.2.1

/-- C6: statuses never regress.  First conjunct: the status UPDATE is
CAS-conditioned — it rewrites exactly the rows whose current status equals
the expected prior one (setting status, file_path and last_updated) and
leaves every other row unchanged.  Second: any `upload_file` call advances
every row's status only along `0→1`, `1→2` (or their composition, when a
single call both starts and finishes assembly).  Third:
`submit_file_metadata` never touches an existing row's status — it either
rolls back or appends a fresh row with status `REGISTERED = 0`. -/
theorem C6_status_monotone :
    (∀ (st : Store) (fid : String) (cs ns : Nat) (fp : String) (now : Int),
      (update_file_status_and_path st fid cs ns fp now).meta =
        st.meta.map (metaStatusUpd fid cs ns fp now)
      ∧ ∀ r : FileMetaRow,
          ((r.file_id = fid ∧ r.status = cs) →
            metaStatusUpd fid cs ns fp now r =
              { r with status := ns, file_path := fp, last_updated := now })
          ∧ (¬ (r.file_id = fid ∧ r.status = cs) →
            metaStatusUpd fid cs ns fp now r = r))
    ∧ (∀ (sanitize : String → String) (sha md5 : List Nat → String) (now : Int)
        (req : UploadRequest) (st : Store) (fs : FS),
        metaAdvances st.meta (upload_file sanitize sha md5 now req st fs).2.1.meta)
    ∧ (∀ (sanitize : String → String) (uuid : String) (metadata : FileMetadata)
        (st : Store),
        (submit_file_metadata sanitize uuid metadata st).2.meta = st.meta
        ∨ (submit_file_metadata sanitize uuid metadata st).2.meta =
            st.meta ++ [⟨uuid, sanitize metadata.filename, metadata.checksum, "",
              metadata.total_size, 0, 0⟩]) := by
  refine ⟨?_, upload_file_meta_advances, submit_meta_cases⟩
  intro st fid cs ns fp now
  refine ⟨rfl, fun r => ⟨fun h => ?_, fun h => ?_⟩⟩
  · unfold metaStatusUpd
    rw [if_pos h]
  · unfold metaStatusUpd
    rw [if_neg h]

/-- C7: the per-buffer progress commit overwrites exactly `uploaded_size`
and `chunk_digest` of the targeted `(file_id, start_offset)` row and
leaves every other row and column alone — but, contrary to the claim, the
UPDATE names no `last_updated` column at all (upload_dao.rs line 28), so
the row's `last_updated` (here 42) survives unchanged instead of being set
to the call time. -/
theorem C7_update_chunk_leaves_last_updated :
    update_upload_progress progressStore 5 "abc" "f1" 0 =
      ⟨[], [⟨"f1", "f", "abc", 4, 5, 0, 3, 42⟩, ⟨"f2", "g", "o2", 4, 1, 0, 3, 7⟩], []⟩
    ∧ (update_upload_progress progressStore 5 "abc" "f1" 0).progress.map
        (fun r => r.last_updated) = [42, 7] := by
  decide

/-- C8: the claim says out-of-range writes fail with InvalidArgument
before any byte is written.  The code never checks
`start_pos + content_length ≤ start_offset + chunk_size`: delivering 6
bytes to the 4-byte chunk at offset 0 succeeds, writes all 6 bytes to the
staging file and commits `uploaded_size = 6 > chunk_size = 4`. -/
theorem C8_no_range_validation :
    overrunResult.1 = Outcome.rangeSuccess "f" 6 "s"
    ∧ fsRead overrunResult.2.2 (chunk_file_path "f" 0) = some [1, 2, 3, 4, 5, 6]
    ∧ overrunResult.2.1.progress.map (fun r => r.uploaded_size) = [6, 0] := by
  decide

/-- C9: with the stored `system_initialized` config value different from
"success", both mutating handlers return the SYSTEM_NOT_INITIALIZED
envelope error and leave the store and the filesystem exactly as they
were. -/
theorem C9_not_initialized_gate (sanitize : String → String)
    (sha md5 : List Nat → String) (now : Int) (req : UploadRequest)
    (st : Store) (fs : FS) (uuid : String) (metadata : FileMetadata)
    (v : String) (hv : get_config st "system_initialized" = some v)
    (hne : v ≠ "success") :
    upload_file sanitize sha md5 now req st fs =
      (Outcome.envelopeError "SYSTEM_NOT_INITIALIZED", st, fs)
    ∧ submit_file_metadata sanitize uuid metadata st =
      (Outcome.envelopeError "SYSTEM_NOT_INITIALIZED", st) := by
  have hchk : check_system_initialized st = .error "System needs initialization" := by
    unfold check_system_initialized
    rw [hv]
    simp only [if_neg hne]
  constructor
  · unfold upload_file
    rw [hchk]
  · unfold submit_file_metadata
    rw [hchk]

theorem C9_not_initialized_gate_witness :
    upload_file id shaS md5S 0 resumeReq notInitStore [] =
      (Outcome.envelopeError "SYSTEM_NOT_INITIALIZED", notInitStore, [])
    ∧ submit_file_metadata id "u1" ⟨"a.bin", 1, "x"⟩ notInitStore =
      (Outcome.envelopeError "SYSTEM_NOT_INITIALIZED", notInitStore) :=
  C9_not_initialized_gate id shaS md5S 0 resumeReq notInitStore [] "u1"
    ⟨"a.bin", 1, "x"⟩ "pending" (by decide) (by decide)

/-- C10: the two `u64` subtractions are total only under the unchecked
preconditions.  First two conjuncts: under `start_offset ≤ start_pos` and
`1 ≤ content_length` the seek position and the default `end_pos` are
defined.  Last two conjuncts: requests that pass header parsing reach the
subtractions and underflow — a `Content-Range` whose start 0 lies below
`X-Start-Offset: 4` underflows the seek computation `start_pos −
start_offset` (upload.rs line 166), and `Content-Length: 0` without a
`Content-Range` header underflows the default `end_pos = content_length −
1` (line 147); no earlier guard rejects either request. -/
theorem C10_unchecked_u64_subtractions :
    (∀ start_offset start_pos : Nat, start_offset ≤ start_pos →
      u64_sub start_pos start_offset = some (start_pos - start_offset))
    ∧ (∀ content_length : Nat, 1 ≤ content_length →
      derive_positions none content_length = some (0, content_length - 1))
    ∧ upload_file id shaS md5S 0 ⟨some "f1", some "4", some "2", some "bytes 0-1/*", [[1, 2]]⟩
        twoChunkStore [] = (Outcome.underflowPanic "seek", twoChunkStore, [])
    ∧ upload_file id shaS md5S 0 ⟨some "f1", some "0", some "0", none, [[1]]⟩
        twoChunkStore [] = (Outcome.underflowPanic "end_pos", twoChunkStore, []) := by
  refine ⟨?_, ?_, by decide, by decide⟩
  · intro a b h
    unfold u64_sub
    rw [if_pos h]
  · intro cl h
    unfold derive_positions u64_sub
    rw [if_pos h]
    rfl
